/-
Verification of the admission-control / pairing-lifecycle state machine of the
WPT charger (NimBLE peripheral, charger.ino), the WPT device (NimBLE central,
device.ino first unit and the unnamed earlier variant), and the lockdown
peripheral variant (second unit of device.ino).

Machine integers: the Arduino `millis()` clock and all timer arithmetic are
32-bit unsigned.  We model clock values as `Nat` reduced modulo `U32 = 2^32`;
`u32sub` is C uint32 subtraction (wrapping).  Addresses are opaque comparable
values, modelled as `Nat`.  Arduino `String` values are modelled as `List Char`.
-/
import Mathlib

/-- 2^32, the modulus of the 32-bit millisecond clock and of uint32 arithmetic. -/
def U32 : Nat := 4294967296

/-- Reduction of a (possibly unbounded, monotonic) time value to the uint32
clock reading that `millis()` returns. -/
def u32 (n : Nat) : Nat := n % U32

/-- C uint32 subtraction `a - b` (wraps modulo 2^32). -/
def u32sub (a b : Nat) : Nat := (a % U32 + U32 - b % U32) % U32

/-- Outcome of the peripheral admission decision; each `Reject` constructor is
one of the early-return `disconnect` sites of `ServerCB::onConnect`
(charger.ino lines 74-93), identified by its log message. -/
inductive Decision where
  | Accept
  | RejectAlreadyConnected
  | RejectCooldown
  | RejectNotBondedWindowClosed
deriving Repr, DecidableEq

/-- Global mutable state of charger.ino: `g_pairMode`, `g_pairModeUntil`,
`g_connected`, `g_hasLastPeer`, `g_lastPeer`, `g_lastDiscMs`, plus the
advertising state (`gAdv` started/stopped, fast/slow interval) and the
advertisement's manufacturer-data bytes (no call in charger.ino ever writes
manufacturer data, so this field records what the payload carries). -/
structure ChargerState where
  pairMode : Bool
  pairModeUntil : Nat
  connected : Bool
  hasLastPeer : Bool
  lastPeer : Nat
  lastDiscMs : Nat
  advertising : Bool
  advFast : Bool
  manufacturerData : List Nat
deriving Repr, DecidableEq

/-- State after charger.ino `setup()` (lines 142-170): all flags cleared,
advertising started fast; no manufacturer data is ever installed in the
advertisement payload. -/
def chargerInit : ChargerState :=
  { pairMode := false, pairModeUntil := 0, connected := false,
    hasLastPeer := false, lastPeer := 0, lastDiscMs := 0,
    advertising := true, advFast := true, manufacturerData := [] }

/-- charger.ino `startAdvertising(fast)` (lines 40-54): stops then restarts
advertising and sets the interval; it touches nothing else of the payload. -/
def startAdvertising (s : ChargerState) (fast : Bool) : ChargerState :=
  { s with advertising := true, advFast := fast }

/-- The openness query charger.ino evaluates (line 71):
`g_pairMode && (millis() < g_pairModeUntil)`, an absolute uint32 comparison. -/
def windowIsOpen (s : ChargerState) (now : Nat) : Bool :=
  s.pairMode && decide (u32 now < s.pairModeUntil)

/-- charger.ino `ServerCB::onConnect` (lines 68-104): computes `bonded` and
`windowOpen`, then the ordered early-return chain — already connected,
non-bonded outside the window, same-peer cooldown (uint32 difference
`millis() - g_lastDiscMs`) — else accepts, marks connected and stops
advertising. -/
def ServerCB_onConnect (s : ChargerState) (peer : Nat) (bonds : List Nat)
    (now : Nat) : ChargerState × Decision :=
  let bonded := decide (peer ∈ bonds)
  let windowOpen := s.pairMode && decide (u32 now < s.pairModeUntil)
  if s.connected then (s, .RejectAlreadyConnected)
  else if !bonded && !windowOpen then (s, .RejectNotBondedWindowClosed)
  else if s.hasLastPeer && peer == s.lastPeer
      && decide (u32sub now s.lastDiscMs < 10000) then (s, .RejectCooldown)
  else ({ s with connected := true, advertising := false }, .Accept)

/-- charger.ino `ServerCB::onDisconnect` (lines 106-117): clears the slot,
records the cooldown record {peer, millis()}, restarts fast advertising. -/
def ServerCB_onDisconnect (s : ChargerState) (peer : Nat) (now : Nat) :
    ChargerState :=
  startAdvertising
    { s with connected := false, lastPeer := peer, hasLastPeer := true,
             lastDiscMs := u32 now } true

/-- charger.ino `ServerCB::onAuthenticationComplete` (lines 131-139): if the
link is not encrypted, disconnect (second component `true`) and return. -/
def charger_onAuthenticationComplete (s : ChargerState) (encrypted : Bool) :
    ChargerState × Bool :=
  if !encrypted then (s, true) else (s, false)

/-- Events delivered to the charger: one poll-loop window-maintenance tick
(charger.ino lines 172-185, with the sampled and previous button levels), the
idle fallback to slow advertising (lines 188-192), and the radio callbacks. -/
inductive ChargerEv where
  | tick (pressed was : Bool) (now : Nat)
  | slowAdv
  | connect (peer : Nat) (bonds : List Nat) (now : Nat)
  | disconnect (peer : Nat) (now : Nat)
  | auth (encrypted : Bool)

/-- One step of the charger: the `tick` case is the pairing-window part of
`loop()` — press edge opens the window with `g_pairModeUntil = millis() +
PAIR_WINDOW_MS` (uint32 addition), then the level-triggered close check
`g_pairMode && millis() > g_pairModeUntil`. -/
def chargerStep (s : ChargerState) (e : ChargerEv) : ChargerState :=
  match e with
  | .tick pressed was now =>
    let s1 := if pressed && !was then
        { s with pairMode := true, pairModeUntil := u32 (u32 now + 30000) }
      else s
    if s1.pairMode && decide (u32 now > s1.pairModeUntil) then
      { s1 with pairMode := false }
    else s1
  | .slowAdv => startAdvertising s false
  | .connect p bonds now => (ServerCB_onConnect s p bonds now).1
  | .disconnect p now => ServerCB_onDisconnect s p now
  | .auth e => (charger_onAuthenticationComplete s e).1

/-- Run of the charger from boot over a list of events. -/
def chargerRun (evs : List ChargerEv) : ChargerState :=
  evs.foldl chargerStep chargerInit

/-- The §4.3 admission policy exactly as the spec words it, rules evaluated in
order with first match winning.  (Spec-side definition, for comparison with
the decision embedded from the source.) -/
def specDecide (bonded windowOpen advertisedPairFlag inCooldown slotOccupied :
    Bool) : Decision :=
  if slotOccupied then .RejectAlreadyConnected
  else if inCooldown then .RejectCooldown
  else if bonded then .Accept
  else if windowOpen && advertisedPairFlag then .Accept
  else .RejectNotBondedWindowClosed

/-- The rule table the charger actually implements: the pair flag is not
consulted, and the cooldown rejection is evaluated after the bonded/window
test. -/
def amendedDecide (bonded windowOpen inCooldown slotOccupied : Bool) :
    Decision :=
  if slotOccupied then .RejectAlreadyConnected
  else if !bonded && !windowOpen then .RejectNotBondedWindowClosed
  else if inCooldown then .RejectCooldown
  else .Accept

/-- device.ino `ScanCB::onResult` lines 96-99: the pairing flag read from the
advertisement's manufacturer data — false when empty, else byte 0 == 1. -/
def deviceReadPairFlag (md : List Nat) : Bool :=
  match md with
  | [] => false
  | b :: _ => b == 1

/-- Global mutable state of device.ino (first unit): `g_txEnabled`,
`g_pairAttempt`, `g_pairUntil`, `g_connected`, `g_scanning`, `g_haveTarget`,
`g_targetAddr`. -/
structure DeviceState where
  txEnabled : Bool
  pairAttempt : Bool
  pairUntil : Nat
  connected : Bool
  scanning : Bool
  haveTarget : Bool
  targetAddr : Nat
deriving Repr, DecidableEq

/-- Calls into the radio stack that the device code can issue. -/
inductive DevOp where
  | StopScan
  | StartScan
  | Connect (a : Nat)
  | Disconnect
deriving Repr, DecidableEq

/-- The fields of a scan result the device code reads: peer address, whether
the 180F service UUID is advertised, and the manufacturer data bytes. -/
structure AdvPacket where
  addr : Nat
  hasSvcUUID : Bool
  manufacturerData : List Nat

/-- device.ino `ScanCB::onResult` (lines 91-116): early returns if busy, TX
off, or wrong service; reads the pairing flag; admits a charger if remembered,
or if the pairing-attempt window is open and the flag is set; then latches the
target, stops scanning.  `known` abstracts the `isRemembered` CSV membership
as the set of remembered addresses. -/
def ScanCB_onResult (s : DeviceState) (known : List Nat) (adv : AdvPacket)
    (now : Nat) : DeviceState × List DevOp :=
  if s.connected || s.haveTarget then (s, [])
  else if !s.txEnabled then (s, [])
  else if !adv.hasSvcUUID then (s, [])
  else
    let pairingFlag := deviceReadPairFlag adv.manufacturerData
    let known_b := decide (adv.addr ∈ known)
    if !known_b
        && !(s.pairAttempt && decide (u32 now < s.pairUntil) && pairingFlag)
      then (s, [])
    else ({ s with targetAddr := adv.addr, haveTarget := true,
                   scanning := false }, [DevOp.StopScan])

/-- unnamed/part_000 `ScanCB::onResult` (lines 50-62): same shape with no
TX-enable or bonded-set filtering — record target, stop scanning, nothing
else. -/
def ScanCB_onResult_v0 (s : DeviceState) (adv : AdvPacket) :
    DeviceState × List DevOp :=
  if s.connected || s.haveTarget then (s, [])
  else if !adv.hasSvcUUID then (s, [])
  else ({ s with targetAddr := adv.addr, haveTarget := true,
                 scanning := false }, [DevOp.StopScan])

/-- device.ino `connectToTarget` (lines 138-170): attempt the connection
(bounded timeout abstracted as the oracle `connectOK`), then service and
characteristic resolution (`svcOK`, `ctrlOK`); each failure clears the
connected/target state and reports false. -/
def connectToTarget (s : DeviceState) (connectOK svcOK ctrlOK : Bool) :
    DeviceState × List DevOp × Bool :=
  if !s.haveTarget then (s, [], false)
  else if !connectOK then
    ({ s with haveTarget := false }, [DevOp.Connect s.targetAddr], false)
  else if !svcOK then
    ({ s with connected := false, haveTarget := false },
      [DevOp.Connect s.targetAddr, DevOp.Disconnect], false)
  else if !ctrlOK then
    ({ s with connected := false, haveTarget := false },
      [DevOp.Connect s.targetAddr, DevOp.Disconnect], false)
  else ({ s with connected := true }, [DevOp.Connect s.targetAddr], true)

/-- device.ino `loop()` arbitration fragment (lines 223-229): only when no
connection is active and a target was queued does the poll loop call
`connectToTarget`; on failure it resumes scanning if TX is still enabled. -/
def loopConnectPhase (s : DeviceState) (connectOK svcOK ctrlOK : Bool) :
    DeviceState × List DevOp :=
  if !s.connected && s.haveTarget then
    let r := connectToTarget s connectOK svcOK ctrlOK
    if !r.2.2 && r.1.txEnabled then
      if r.1.scanning then (r.1, r.2.1)
      else ({ r.1 with scanning := true }, r.2.1 ++ [DevOp.StartScan])
    else (r.1, r.2.1)
  else (s, [])

/-- device.ino `ClientCB::onDisconnect` (lines 68-72): clear connected state
and pending target unconditionally. -/
def ClientCB_onDisconnect (s : DeviceState) : DeviceState :=
  { s with connected := false, haveTarget := false }

/-- Arduino `String::toUpperCase` over the character list. -/
def upperStr (s : List Char) : List Char := s.map Char.toUpper

/-- Arduino `hay.indexOf(needle) >= 0`: the needle occurs as a contiguous
substring of the haystack. -/
def hasSub (hay needle : List Char) : Bool := decide (needle <:+: hay)

/-- device.ino `isRemembered` (lines 44-51): uppercase both the stored CSV
list and the address string, then substring search. -/
def isRemembered (stored a : List Char) : Bool :=
  hasSub (upperStr stored) (upperStr a)

/-- device.ino `rememberBond` (lines 52-60): if the stored list is empty the
list becomes the address; else if the address does not occur as a substring it
is appended after a comma; otherwise the list is left as is. -/
def rememberBond (stored a : List Char) : List Char :=
  if stored.length = 0 then a
  else if hasSub stored a then stored
  else stored ++ [','] ++ a

/-- device.ino `ClientCB::onAuthenticationComplete` (lines 78-86): unencrypted
link means disconnect (first component `true`) and return before any use; on
an encrypted link, a bonded result is written through `rememberBond`. -/
def ClientCB_onAuthenticationComplete (encrypted bonded : Bool)
    (stored addr : List Char) : Bool × List Char :=
  if !encrypted then (true, stored)
  else (false, if bonded then rememberBond stored addr else stored)

/-- Global state of the lockdown variant (second unit of device.ino): the
interrupt flag `gEdge`, debounce timestamp `gLastToggleMs`, `isLockedDown`,
the link-layer whitelist, the NimBLE bond table, the advertised name, and the
set of currently connected peer handles. -/
structure SecState where
  gEdge : Bool
  gLastToggleMs : Nat
  isLockedDown : Bool
  connectedPeers : List Nat
  whitelist : List Nat
  bondStore : List Nat
  advName : String
deriving Repr, DecidableEq

/-- The clear loop of device.ino `buildWhitelistFromBonds` (lines 299-303):
`for (i = 0; i < wlCount; ++i) whiteListRemove(getWhiteListAddress(i))` with
`wlCount` snapshotted before the loop while the whitelist shrinks under the
removals.  Each iteration reads the CURRENT list at index `i` and removes that
address (first occurrence); an out-of-range index yields a null address whose
removal is a no-op.  First argument: remaining iterations; second: the loop
index `i`. -/
def wlClearSteps : Nat → Nat → List Nat → List Nat
  | 0, _, wl => wl
  | steps + 1, i, wl =>
    wlClearSteps steps (i + 1)
      (if h : i < wl.length then wl.erase (wl.get ⟨i, h⟩) else wl)

/-- device.ino `buildWhitelistFromBonds` (lines 297-309): run the
index-shifting clear loop over the snapshotted count, then add every bonded
address.  Because the list shifts under the ascending index, a whitelist with
two or more entries is NOT fully cleared (every other entry survives),
despite the source comment "SAFELY clear". -/
def buildWhitelistFromBonds (s : SecState) : SecState :=
  { s with whitelist :=
      wlClearSteps s.whitelist.length 0 s.whitelist ++ s.bondStore }

/-- device.ino `applyModeToSecurityAndAdv` (lines 311-333): in LOCKDOWN,
rebuild the whitelist from the bond table and advertise as TEST_LOCKED; in
PAIRING, no whitelist enforcement and advertise as TEST_PAIR. -/
def applyModeToSecurityAndAdv (s : SecState) : SecState :=
  if s.isLockedDown then
    { buildWhitelistFromBonds s with advName := "TEST_LOCKED" }
  else { s with advName := "TEST_PAIR" }

/-- device.ino `update_security_mode` (lines 273-293): return unless the ISR
flag is pending; consume it; return if within the 50 ms debounce (uint32
difference); if the pin still reads pressed, toggle the mode and re-apply
security/advertising; then — outside the pin re-validation branch — disconnect
every currently connected peer.  Second component: the peers told to
disconnect. -/
def update_security_mode (s : SecState) (now : Nat) (pinLow : Bool) :
    SecState × List Nat :=
  if !s.gEdge then (s, [])
  else
    let s0 := { s with gEdge := false }
    if u32sub now s0.gLastToggleMs < 50 then (s0, [])
    else
      let s1 :=
        if pinLow then
          applyModeToSecurityAndAdv
            { s0 with gLastToggleMs := u32 now,
                      isLockedDown := !s0.isLockedDown }
        else s0
      (s1, s1.connectedPeers)

/-- `Bond Store: add(identity)` of the external interface (§6) — the NimBLE
stack records a new bond.  Only the bond table changes. -/
def addBond (s : SecState) (a : Nat) : SecState :=
  { s with bondStore := a :: s.bondStore }

/-- The advertising filter configuration written by
`adv->setScanFilter(scanRequestWhitelistOnly, connectWhitelistOnly)`: the
first flag restricts scan requests to whitelisted peers, the second restricts
connection attempts. -/
structure AdvFilter where
  scanRequestWhitelistOnly : Bool
  connectWhitelistOnly : Bool
deriving Repr, DecidableEq

/-- device.ino `setup()` line 427: `adv->setScanFilter(true, false)` — scan
requests are whitelist-filtered, connection attempts are NOT.  This call is
made once and never changed. -/
def secAdvFilter : AdvFilter :=
  { scanRequestWhitelistOnly := true, connectWhitelistOnly := false }

/-- Modelled from the spec: the link-layer filter itself lives in the NimBLE
stack, not in this repository; what src/ fixes is its configuration
(`setScanFilter`, device.ino:427).  The controller rejects a connection
attempt at the link layer exactly when connect whitelist filtering is enabled
and the identity is absent from the whitelist. -/
def linkLayerAdmits (f : AdvFilter) (s : SecState) (idAddr : Nat) : Bool :=
  !f.connectWhitelistOnly || decide (idAddr ∈ s.whitelist)

/-- device.ino `ServerCallbacks::onIdentity` (lines 362-371): in LOCKDOWN,
disconnect (result `true`) when the resolved identity is not in the live bond
table. -/
def ServerCallbacks_onIdentity (s : SecState) (idAddr : Nat) : Bool :=
  s.isLockedDown && !(decide (idAddr ∈ s.bondStore))

/-- Concrete lockdown-variant state used by the C2 and C9 witnesses. -/
def secW : SecState :=
  { gEdge := true, gLastToggleMs := 0, isLockedDown := false,
    connectedPeers := [3, 4], whitelist := [], bondStore := [1],
    advName := "TEST_PAIR" }

/-- Concrete device state used by the C6 witness. -/
def devW : DeviceState :=
  { txEnabled := true, pairAttempt := false, pairUntil := 0,
    connected := false, scanning := false, haveTarget := true,
    targetAddr := 5 }

/-- Concrete charger state realizing the truth-table row (bonded = false,
windowOpen = true, advertisedPairFlag = false, inCooldown = false,
slotOccupied = false) at time 100, used by the C1 counterexample. -/
def chargerRow4 : ChargerState :=
  { pairMode := true, pairModeUntil := 30000, connected := false,
    hasLastPeer := false, lastPeer := 0, lastDiscMs := 0,
    advertising := true, advFast := true, manufacturerData := [] }

/-- uint32 reduction is the identity below 2^32. -/
theorem u32_lt_eq {n : Nat} (h : n < U32) : u32 n = n := Nat.mod_eq_of_lt h

/-- uint32 subtraction of a recorded clock reading from a later absolute time
computes the elapsed time modulo 2^32. -/
theorem u32sub_u32_right (now t : Nat) (h : t ≤ now) :
    u32sub now (u32 t) = (now - t) % U32 := by
  simp only [u32sub, u32, U32]
  omega

/-- Mapping a function over the characters preserves substring occurrence. -/
theorem infix_map_char (f : Char → Char) {l L : List Char} (h : l <:+: L) :
    l.map f <:+: L.map f := by
  obtain ⟨s, t, rfl⟩ := h
  exact ⟨s.map f, t.map f, by simp⟩

/-- C1 counterexample: at the truth-table row (bonded = false, windowOpen =
true, advertisedPairFlag = false, inCooldown = false, slotOccupied = false)
the inbound-connection decision of `ServerCB::onConnect` Accepts, while the
ordered rules of §4.3 give Reject(NotBondedWindowClosed) — the code never
consults the advertised pair flag.  The conjuncts record that `chargerRow4`
at time 100 realizes exactly that row. -/
theorem c1_counterexample :
    (ServerCB_onConnect chargerRow4 5 [] 100).2 = Decision.Accept
    ∧ specDecide false true false false false
        = Decision.RejectNotBondedWindowClosed
    ∧ decide ((5 : Nat) ∈ ([] : List Nat)) = false
    ∧ (chargerRow4.pairMode
        && decide (u32 100 < chargerRow4.pairModeUntil)) = true
    ∧ (chargerRow4.hasLastPeer && (5 : Nat) == chargerRow4.lastPeer
        && decide (u32sub 100 chargerRow4.lastDiscMs < 10000)) = false
    ∧ chargerRow4.connected = false := by
  decide

/-- `ServerCB::onConnect` as a decision table: its result is the
`amendedDecide` verdict on the four booleans it derives from its state, the
state being updated exactly on Accept. -/
theorem onConnect_spec (s : ChargerState) (peer : Nat) (bonds : List Nat)
    (now : Nat) :
    ServerCB_onConnect s peer bonds now =
      (let d := amendedDecide (decide (peer ∈ bonds))
          (s.pairMode && decide (u32 now < s.pairModeUntil))
          (s.hasLastPeer && peer == s.lastPeer
            && decide (u32sub now s.lastDiscMs < 10000))
          s.connected
       ((if d = Decision.Accept
          then { s with connected := true, advertising := false } else s),
        d)) := by
  show (if s.connected then _ else _) = _
  generalize decide (peer ∈ bonds) = b
  generalize (s.pairMode && decide (u32 now < s.pairModeUntil)) = w
  generalize (s.hasLastPeer && peer == s.lastPeer
      && decide (u32sub now s.lastDiscMs < 10000)) = C
  cases s.connected <;> cases b <;> cases w <;> cases C <;> rfl

/-- C1 (amended): the admission decision of `ServerCB::onConnect` follows the
four-boolean rule table `amendedDecide` — slotOccupied, then (not bonded and
window closed), then cooldown, else Accept — with the state updated exactly on
Accept; and `amendedDecide` agrees with the §4.3 table `specDecide` on every
row in which the pair flag equals the window state and the peer is not
simultaneously in cooldown and unbonded-with-window-closed. -/
theorem c1_decision_amended :
    (∀ (s : ChargerState) (peer : Nat) (bonds : List Nat) (now : Nat),
      ServerCB_onConnect s peer bonds now =
        (let d := amendedDecide (decide (peer ∈ bonds))
            (s.pairMode && decide (u32 now < s.pairModeUntil))
            (s.hasLastPeer && peer == s.lastPeer
              && decide (u32sub now s.lastDiscMs < 10000))
            s.connected
         ((if d = Decision.Accept
            then { s with connected := true, advertising := false } else s),
          d)))
    ∧ (∀ b w p c sl : Bool, p = w → (c && !b && !w) = false →
        amendedDecide b w c sl = specDecide b w p c sl) := by
  constructor
  · intro s peer bonds now
    exact onConnect_spec s peer bonds now
  · decide

/-- C1 witness: the amended rule table evaluated on a concrete state (the
admissible bonded-free-window row) and a concrete agreement row. -/
theorem c1_decision_amended_witness :
    ServerCB_onConnect chargerRow4 5 [] 100 =
      ({ chargerRow4 with connected := true, advertising := false },
        Decision.Accept)
    ∧ amendedDecide false true false false = specDecide false true true false
        false := by
  constructor
  · rw [c1_decision_amended.1 chargerRow4 5 [] 100]
    decide
  · exact c1_decision_amended.2 false true true false false rfl (by decide)

/-- C8: when an authentication-complete event reports the link not encrypted,
the charger (`ServerCB::onAuthenticationComplete`) and the device
(`ClientCB::onAuthenticationComplete`) both issue a forced disconnect and do
nothing else (no bond is recorded, state untouched); the ensuing disconnect
callbacks return each side to its idle/listening state — the charger vacates
the slot and resumes advertising, the device clears connected and pending
target. -/
theorem c8_auth_unencrypted_disconnect :
    ∀ (s : ChargerState) (ds : DeviceState) (stored addr : List Char)
      (bonded : Bool) (p now : Nat),
      charger_onAuthenticationComplete s false = (s, true)
      ∧ ClientCB_onAuthenticationComplete false bonded stored addr
          = (true, stored)
      ∧ (ServerCB_onDisconnect s p now).connected = false
      ∧ (ServerCB_onDisconnect s p now).advertising = true
      ∧ (ClientCB_onDisconnect ds).connected = false
      ∧ (ClientCB_onDisconnect ds).haveTarget = false := by
  intro s ds stored addr bonded p now
  exact ⟨rfl, rfl, rfl, rfl, rfl, rfl⟩

/-- C10: after `rememberBond`, `isRemembered` (case-insensitive substring
search over the stored comma-separated list) finds the same address, and
repeating `rememberBond` with the identical address string leaves the stored
list unchanged. -/
theorem c10_remember_bond_membership :
    ∀ stored a : List Char,
      isRemembered (rememberBond stored a) a = true
      ∧ rememberBond (rememberBond stored a) a = rememberBond stored a := by
  intro stored a
  have hmem : ∀ L : List Char, a <:+: L → isRemembered L a = true := by
    intro L h
    simp only [isRemembered, hasSub, upperStr, decide_eq_true_eq]
    exact infix_map_char Char.toUpper h
  by_cases h0 : stored.length = 0
  · have hr : rememberBond stored a = a := by simp [rememberBond, h0]
    refine ⟨by rw [hr]; exact hmem a (List.infix_refl a), ?_⟩
    rw [hr]
    by_cases ha : a.length = 0
    · simp [rememberBond, ha]
    · have hs : hasSub a a = true := by
        simp only [hasSub, decide_eq_true_eq]
        exact List.infix_refl a
      simp [rememberBond, ha, hs]
  · by_cases h1 : hasSub stored a = true
    · have hr : rememberBond stored a = stored := by
        simp [rememberBond, h0, h1]
      have hinf : a <:+: stored := by
        simpa only [hasSub, decide_eq_true_eq] using h1
      refine ⟨by rw [hr]; exact hmem stored hinf, ?_⟩
      rw [hr]; simp [rememberBond, h0, h1]
    · have hr : rememberBond stored a = stored ++ ',' :: a := by
        simp [rememberBond, h0, h1]
      have hinf : a <:+: stored ++ ',' :: a :=
        ⟨stored ++ [','], [], by simp⟩
      refine ⟨by rw [hr]; exact hmem _ hinf, ?_⟩
      rw [hr]
      have hlen : ¬(stored ++ ',' :: a).length = 0 := by simp
      have hsub : hasSub (stored ++ ',' :: a) a = true := by
        simp only [hasSub, decide_eq_true_eq]
        exact hinf
      simp [rememberBond, hlen, hsub]

/-- A poll tick with no press edge does not move the window deadline. -/
theorem chargerStep_tick_noedge_until (s : ChargerState) (p w : Bool) (c : Nat)
    (h : (p && !w) = false) :
    (chargerStep s (ChargerEv.tick p w c)).pairModeUntil = s.pairModeUntil := by
  simp only [chargerStep, h, Bool.false_eq_true, if_false]
  split <;> rfl

/-- A poll tick with no press edge, taken at or before the deadline, leaves
the whole charger state unchanged. -/
theorem chargerStep_tick_noedge_stay (s : ChargerState) (p w : Bool) (c : Nat)
    (h : (p && !w) = false) (h2 : u32 c ≤ s.pairModeUntil) :
    chargerStep s (ChargerEv.tick p w c) = s := by
  have hd : decide (u32 c > s.pairModeUntil) = false :=
    decide_eq_false_iff_not.mpr (Nat.not_lt.mpr h2)
  simp [chargerStep, h, hd]

/-- Folding edge-free ticks preserves the window deadline. -/
theorem tickFold_until (l : List (Bool × Bool × Nat)) :
    ∀ s : ChargerState, (∀ x ∈ l, (x.1 && !x.2.1) = false) →
    (l.foldl (fun st x => chargerStep st (ChargerEv.tick x.1 x.2.1 x.2.2))
      s).pairModeUntil = s.pairModeUntil := by
  induction l with
  | nil => intro s _; rfl
  | cons a l ih =>
    intro s h
    simp only [List.foldl_cons]
    rw [ih _ (fun x hx => h x (List.mem_cons_of_mem a hx)),
      chargerStep_tick_noedge_until s a.1 a.2.1 a.2.2
        (h a (List.mem_cons_self a l))]

/-- Folding edge-free ticks all taken at or before the deadline leaves the
charger state unchanged. -/
theorem tickFold_stay (l : List (Bool × Bool × Nat)) :
    ∀ s : ChargerState,
    (∀ x ∈ l, (x.1 && !x.2.1) = false ∧ u32 x.2.2 ≤ s.pairModeUntil) →
    l.foldl (fun st x => chargerStep st (ChargerEv.tick x.1 x.2.1 x.2.2)) s
      = s := by
  induction l with
  | nil => intro s _; rfl
  | cons a l ih =>
    intro s h
    simp only [List.foldl_cons]
    rw [chargerStep_tick_noedge_stay s a.1 a.2.1 a.2.2
        (h a (List.mem_cons_self a l)).1 (h a (List.mem_cons_self a l)).2]
    exact ih s (fun x hx => h x (List.mem_cons_of_mem a hx))

/-- C3 counterexample: the window is opened by a press edge at clock
2^32 − 1000 = 4294966296; a query only 100 ms later — inside
[t0, t0 + 30000) — already reports the window closed, because
`g_pairModeUntil = millis() + 30000` wrapped to 29000 and the openness check
compares clock values absolutely. -/
theorem c3_counterexample :
    windowIsOpen
      (chargerStep chargerInit (ChargerEv.tick true false 4294966296))
      4294966396 = false
    ∧ 4294966296 ≤ 4294966396
    ∧ 4294966396 < 4294966296 + 30000 := by
  decide

/-- C3 (amended): provided the window does not cross the 32-bit clock wrap
(t0 + 30000 < 2^32), a window opened by a press edge at t0 and neither
re-triggered nor closed reports open at every query in [t0, t0 + 30000) and
closed at every query in [t0 + 30000, 2^32), across any sequence of edge-free
poll ticks taken between t0 and the query; and a stale open flag self-closes
on the next poll tick after the deadline with no new events. -/
theorem c3_window_amended :
    (∀ (t0 q : Nat) (ticks : List (Bool × Bool × Nat)),
      t0 + 30000 < U32 → t0 ≤ q → q < U32 →
      (∀ x ∈ ticks, (x.1 && !x.2.1) = false ∧ t0 ≤ x.2.2 ∧ x.2.2 ≤ q) →
      windowIsOpen
        (ticks.foldl (fun st x => chargerStep st (ChargerEv.tick x.1 x.2.1
          x.2.2)) (chargerStep chargerInit (ChargerEv.tick true false t0)))
        q = decide (q < t0 + 30000))
    ∧ (∀ t0 c : Nat, t0 + 30000 < U32 → t0 + 30000 < c → c < U32 →
        (chargerStep (chargerStep chargerInit (ChargerEv.tick true false t0))
          (ChargerEv.tick false true c)).pairMode = false) := by
  have hs0 : ∀ t0 : Nat, t0 + 30000 < U32 →
      chargerStep chargerInit (ChargerEv.tick true false t0)
        = { chargerInit with pairMode := true, pairModeUntil := t0 + 30000 } := by
    intro t0 hw
    have h1 : u32 (u32 t0 + 30000) = t0 + 30000 := by
      simp only [u32, U32] at *
      omega
    have h2 : decide (u32 t0 > t0 + 30000) = false := by
      simp only [u32, U32, decide_eq_false_iff_not] at *
      omega
    simp only [chargerStep, Bool.and_self, Bool.not_false, if_true, h2,
      Bool.and_false, Bool.false_eq_true, if_false, h1]
  constructor
  · intro t0 q ticks hw hq hqU hticks
    rw [hs0 t0 hw]
    by_cases hcase : q < t0 + 30000
    · rw [tickFold_stay ticks _ (by
        intro x hx
        refine ⟨(hticks x hx).1, ?_⟩
        have h1 : u32 x.2.2 ≤ x.2.2 := Nat.mod_le _ _
        have h2 := (hticks x hx).2.2
        show u32 x.2.2 ≤ t0 + 30000
        omega)]
      have hq32 : u32 q = q := u32_lt_eq hqU
      simp [windowIsOpen, hq32, hcase]
    · have hu := tickFold_until ticks
        { chargerInit with pairMode := true, pairModeUntil := t0 + 30000 }
        (fun x hx => (hticks x hx).1)
      have hq32 : u32 q = q := u32_lt_eq hqU
      simp only [windowIsOpen, hu, hq32]
      simp [hcase]
  · intro t0 c hw hc hcU
    rw [hs0 t0 hw]
    have hc32 : u32 c = c := u32_lt_eq hcU
    have hd : decide (u32 c > t0 + 30000) = true := by
      rw [hc32]
      exact decide_eq_true_iff.mpr hc
    simp [chargerStep, hd]

/-- C3 witness: window opened at 1000 is open at 5000 after no further ticks,
and a stale open flag self-closes on a tick at 40000. -/
theorem c3_window_amended_witness :
    windowIsOpen (chargerStep chargerInit (ChargerEv.tick true false 1000))
      5000 = true
    ∧ (chargerStep (chargerStep chargerInit (ChargerEv.tick true false 1000))
        (ChargerEv.tick false true 40000)).pairMode = false := by
  constructor
  · have h := c3_window_amended.1 1000 5000 [] (by decide) (by decide)
      (by decide) (by intro x hx; cases hx)
    simpa using h
  · exact c3_window_amended.2 1000 40000 (by decide) (by decide) (by decide)

/-- Decision of an inbound connection arriving after a disconnect recorded the
cooldown slot: the slot is free, the cooldown condition is a same-peer check
against the wrapped elapsed time. -/
theorem onConnect_after_disconnect (s : ChargerState) (peer q t1 now : Nat)
    (bonds : List Nat) :
    (ServerCB_onConnect (ServerCB_onDisconnect s peer t1) q bonds now).2
      = amendedDecide (decide (q ∈ bonds))
          (s.pairMode && decide (u32 now < s.pairModeUntil))
          (q == peer && decide (u32sub now (u32 t1) < 10000))
          false := by
  rw [onConnect_spec]
  rfl

/-- C4 counterexample: peer 7 disconnects at t1 = 0 and — bonded, slot free —
attempts again at now = 2^32 + 5000 ms, far beyond t1 + 10000; the uint32
difference (now − t1) mod 2^32 = 5000 makes the charger reject it with the
cooldown rule, where the claim promises admissibility at every time ≥
t1 + 10000. -/
theorem c4_counterexample :
    (ServerCB_onConnect (ServerCB_onDisconnect chargerInit 7 0) 7 [7]
      4294972296).2 = Decision.RejectCooldown
    ∧ 0 + 10000 ≤ 4294972296
    ∧ (7 : Nat) ∈ [7]
    ∧ (ServerCB_onDisconnect chargerInit 7 0).connected = false := by
  decide

/-- C4 (amended): after a peer disconnects at t1, a connection attempt by the
same peer at now ∈ [t1, t1 + 10000) is never accepted, and is rejected with
the cooldown reason whenever the peer is bonded; at now ≥ t1 + 10000 the peer
is accepted when bonded, provided additionally (now − t1) mod 2^32 ≥ 10000 —
the uint32 check spuriously re-arms the cooldown for 10 s every 2^32 ms; the
cooldown record holds only the most recently disconnected peer, and a
different peer is never rejected with the cooldown reason. -/
theorem c4_cooldown_amended :
    ∀ (s : ChargerState) (peer q t1 now : Nat) (bonds : List Nat),
      t1 ≤ now →
      ((now - t1 < 10000 →
        (ServerCB_onConnect (ServerCB_onDisconnect s peer t1) peer bonds
          now).2 ≠ Decision.Accept)
      ∧ (now - t1 < 10000 → peer ∈ bonds →
        (ServerCB_onConnect (ServerCB_onDisconnect s peer t1) peer bonds
          now).2 = Decision.RejectCooldown)
      ∧ (10000 ≤ now - t1 → 10000 ≤ (now - t1) % U32 → peer ∈ bonds →
        (ServerCB_onConnect (ServerCB_onDisconnect s peer t1) peer bonds
          now).2 = Decision.Accept)
      ∧ (q ≠ peer →
        (ServerCB_onConnect (ServerCB_onDisconnect s peer t1) q bonds
          now).2 ≠ Decision.RejectCooldown)
      ∧ (ServerCB_onDisconnect s peer t1).lastPeer = peer) := by
  intro s peer q t1 now bonds h
  have hsub : u32sub now (u32 t1) = (now - t1) % U32 :=
    u32sub_u32_right now t1 h
  refine ⟨?_, ?_, ?_, ?_, rfl⟩
  · intro hlt
    rw [onConnect_after_disconnect]
    have hd : decide (u32sub now (u32 t1) < 10000) = true := by
      rw [hsub]
      refine decide_eq_true_iff.mpr ?_
      have hx : now - t1 < U32 := by
        simp only [U32]
        omega
      rw [Nat.mod_eq_of_lt hx]
      exact hlt
    cases hb : decide (peer ∈ bonds) <;>
      cases hw2 : (s.pairMode && decide (u32 now < s.pairModeUntil)) <;>
        simp [amendedDecide, hb, hw2, hd]
  · intro hlt hbond
    rw [onConnect_after_disconnect]
    have hd : decide (u32sub now (u32 t1) < 10000) = true := by
      rw [hsub]
      refine decide_eq_true_iff.mpr ?_
      have hx : now - t1 < U32 := by
        simp only [U32]
        omega
      rw [Nat.mod_eq_of_lt hx]
      exact hlt
    simp [amendedDecide, hbond, hd]
  · intro hge hmod hbond
    rw [onConnect_after_disconnect]
    have hd : decide (u32sub now (u32 t1) < 10000) = false := by
      rw [hsub]
      exact decide_eq_false_iff_not.mpr (Nat.not_lt.mpr hmod)
    simp [amendedDecide, hbond, hd]
  · intro hq
    rw [onConnect_after_disconnect]
    have hqb : (q == peer) = false := beq_eq_false_iff_ne.mpr hq
    cases hb : decide (q ∈ bonds) <;>
      cases hw2 : (s.pairMode && decide (u32 now < s.pairModeUntil)) <;>
        simp [amendedDecide, hb, hw2, hqb]

/-- C4 witness: concrete cooldown behavior — peer 7 rejected at 5000 ms,
accepted at 20000 ms, and peer 9 never cooldown-rejected. -/
theorem c4_cooldown_amended_witness :
    (ServerCB_onConnect (ServerCB_onDisconnect chargerInit 7 0) 7 [7]
      20000).2 = Decision.Accept
    ∧ (ServerCB_onConnect (ServerCB_onDisconnect chargerInit 7 0) 7 [7]
      5000).2 = Decision.RejectCooldown
    ∧ (ServerCB_onConnect (ServerCB_onDisconnect chargerInit 7 0) 9 [9]
      5000).2 ≠ Decision.RejectCooldown := by
  refine ⟨?_, ?_, ?_⟩
  · exact (c4_cooldown_amended chargerInit 7 9 0 20000 [7]
      (by decide)).2.2.1 (by decide) (by decide) (by decide)
  · exact (c4_cooldown_amended chargerInit 7 9 0 5000 [7]
      (by decide)).2.1 (by decide) (by decide)
  · exact (c4_cooldown_amended chargerInit 7 9 0 5000 [9]
      (by decide)).2.2.2.1 (by decide)

/-- No charger event ever writes the advertisement's manufacturer data. -/
theorem chargerStep_md (s : ChargerState) (e : ChargerEv) :
    (chargerStep s e).manufacturerData = s.manufacturerData := by
  cases e with
  | tick p w c =>
    simp only [chargerStep]
    repeat' split
    all_goals rfl
  | slowAdv => rfl
  | connect p bonds c =>
    simp only [chargerStep, ServerCB_onConnect]
    repeat' split
    all_goals rfl
  | disconnect p c => rfl
  | auth e =>
    simp only [chargerStep, charger_onAuthenticationComplete]
    split <;> rfl

/-- Manufacturer data is invariant over any run of charger events. -/
theorem chargerFold_md (evs : List ChargerEv) :
    ∀ s : ChargerState,
      (evs.foldl chargerStep s).manufacturerData = s.manufacturerData := by
  induction evs with
  | nil => intro s; rfl
  | cons e evs ih =>
    intro s
    simp only [List.foldl_cons]
    rw [ih (chargerStep s e), chargerStep_md]

/-- C5 (code bug): charger.ino never writes manufacturer data — opening or
closing the pairing window touches only `g_pairMode`/`g_pairModeUntil` and
`startAdvertising` sets only intervals — so the advertised payload carries no
pairing-flag byte in any reachable state; concretely, right after the window
opens at clock 1000 the window is open yet the device-side flag read
(`ScanCB::onResult` byte-0 test) yields false. -/
theorem c5_manufacturer_data_never_set :
    (∀ evs : List ChargerEv, (chargerRun evs).manufacturerData = [])
    ∧ windowIsOpen (chargerStep chargerInit (ChargerEv.tick true false 1000))
        1500 = true
    ∧ deviceReadPairFlag
        (chargerStep chargerInit
          (ChargerEv.tick true false 1000)).manufacturerData = false := by
  refine ⟨?_, by decide, by decide⟩
  intro evs
  rw [chargerRun, chargerFold_md]
  rfl

/-- C6: a scan-result event at most records the pending target and stops
scanning — in both central variants the handler never issues a connect and
never marks the link connected; the connect operation is emitted only by the
poll-loop arbitration step, and only from a state with no active connection
and a queued target. -/
theorem c6_no_connect_in_scan_callback :
    (∀ (s : DeviceState) (known : List Nat) (adv : AdvPacket) (now : Nat),
      ((ScanCB_onResult s known adv now).1 = s
        ∨ (ScanCB_onResult s known adv now).1
          = { s with
              targetAddr := adv.addr,
              haveTarget := true,
              scanning := false })
      ∧ ∀ a : Nat, DevOp.Connect a ∉ (ScanCB_onResult s known adv now).2)
    ∧ (∀ (s : DeviceState) (adv : AdvPacket) (a : Nat),
        DevOp.Connect a ∉ (ScanCB_onResult_v0 s adv).2)
    ∧ (∀ (s : DeviceState) (cOK sOK ctOK : Bool) (a : Nat),
        DevOp.Connect a ∈ (loopConnectPhase s cOK sOK ctOK).2 →
        s.connected = false ∧ s.haveTarget = true) := by
  refine ⟨?_, ?_, ?_⟩
  · intro s known adv now
    constructor
    · simp only [ScanCB_onResult]
      repeat' split
      all_goals simp
    · intro a
      simp only [ScanCB_onResult]
      repeat' split
      all_goals simp
  · intro s adv a
    simp only [ScanCB_onResult_v0]
    repeat' split
    all_goals simp
  · intro s cOK sOK ctOK a hmem
    by_cases hc : (!s.connected && s.haveTarget) = true
    · have := hc
      simp only [Bool.and_eq_true, Bool.not_eq_true'] at this
      exact this
    · exfalso
      have hc' : (!s.connected && s.haveTarget) = false :=
        Bool.eq_false_iff.mpr hc
      rw [loopConnectPhase] at hmem
      rw [hc'] at hmem
      simp at hmem

/-- C7 (code bug): the pairing-window expiry checks compare clock values
absolutely, so a window opened at clock 2^32 − 2000 (whose `g_pairModeUntil`
wraps to 28000) is reported closed only 500 ms later even though the wrapped
elapsed-time difference is 500 < 30000; the same-peer cooldown check, by
contrast, uses the uint32 difference `millis() - g_lastDiscMs` and decides
correctly across the wrap — a peer that disconnected at clock 2^32 − 5000 and
retries 7000 ms later (clock wrapped to 2000) is still rejected as within
cooldown. -/
theorem c7_wraparound_bug :
    windowIsOpen
      (chargerStep chargerInit (ChargerEv.tick true false 4294965296))
      4294965796 = false
    ∧ u32sub 4294965796 4294965296 < 30000
    ∧ (ServerCB_onConnect (ServerCB_onDisconnect chargerInit 7 4294962296) 7
        [7] 4294969296).2 = Decision.RejectCooldown
    ∧ 4294969296 - 4294962296 < 10000 := by
  decide

/-- C6 witness: from the idle-with-target state the arbitration step does
emit a connect, so the implication's hypothesis is satisfiable. -/
theorem c6_no_connect_in_scan_callback_witness :
    devW.connected = false ∧ devW.haveTarget = true :=
  c6_no_connect_in_scan_callback.2.2 devW true true true 5 (by decide)

/-- C9: every call of `update_security_mode` that consumes a pending ISR edge
flag and passes the 50 ms debounce issues a disconnect to every currently
connected peer — also when the pin re-validation reads the button released,
in which case the operating mode is left untouched. -/
theorem c9_disconnect_all_on_debounced_edge :
    ∀ (s : SecState) (now : Nat) (pinLow : Bool),
      s.gEdge = true → 50 ≤ u32sub now s.gLastToggleMs →
      ((update_security_mode s now pinLow).2 = s.connectedPeers
      ∧ (pinLow = false →
          (update_security_mode s now pinLow).1.isLockedDown
            = s.isLockedDown)) := by
  intro s now pin h1 h2
  have hd : ¬(u32sub now s.gLastToggleMs < 50) := Nat.not_lt.mpr h2
  constructor
  · cases pin <;>
      simp [update_security_mode, h1, hd, applyModeToSecurityAndAdv,
        buildWhitelistFromBonds] <;>
      split <;> rfl
  · intro hp
    rw [hp]
    simp [update_security_mode, h1, hd]

/-- C9 witness: edge pending, debounce passed, pin re-validation reads
released — both peers 3 and 4 are told to disconnect, mode untouched. -/
theorem c9_disconnect_all_on_debounced_edge_witness :
    (update_security_mode secW 100 false).2 = [3, 4]
    ∧ (update_security_mode secW 100 false).1.isLockedDown = false := by
  have h := c9_disconnect_all_on_debounced_edge secW 100 false rfl (by decide)
  exact ⟨h.1, h.2 rfl⟩

/-- Recording bonds never touches the whitelist or the operating mode; the
bond table accumulates the additions. -/
theorem addBondFold (l : List Nat) :
    ∀ s : SecState,
      (l.foldl addBond s).whitelist = s.whitelist
      ∧ (l.foldl addBond s).isLockedDown = s.isLockedDown
      ∧ (l.foldl addBond s).bondStore = l.reverse ++ s.bondStore := by
  induction l with
  | nil => intro s; exact ⟨rfl, rfl, by simp⟩
  | cons a l ih =>
    intro s
    simp only [List.foldl_cons]
    obtain ⟨h1, h2, h3⟩ := ih (addBond s a)
    refine ⟨h1, h2, ?_⟩
    rw [h3]
    simp [addBond]

/-- C2 counterexample: from PAIRING with bond table [1], a debounced press
transitions to LOCKDOWN.  The program's advertising filter is
`setScanFilter(true, false)` (device.ino:427): connect whitelist filtering is
disabled, so identity 2 — absent from the transition-time whitelist — is
still admitted at the link layer, contradicting "rejected by the link-layer
allow-list before the application sees a connect event"; after identity 2 is
added to the live bond table, the identity-resolution checkpoint `onIdentity`
passes it too (result false), contradicting "and again at identity
resolution"; and the index-shifting clear loop leaves the stale entry 11 in a
whitelist rebuilt from [10, 11], so the allow-list is not even the clean Bond
Store snapshot. -/
theorem c2_counterexample :
    secAdvFilter.connectWhitelistOnly = false
    ∧ 2 ∉ (update_security_mode secW 100 true).1.whitelist
    ∧ linkLayerAdmits secAdvFilter
        (addBond (update_security_mode secW 100 true).1 2) 2 = true
    ∧ ServerCallbacks_onIdentity
        (addBond (update_security_mode secW 100 true).1 2) 2 = false
    ∧ (buildWhitelistFromBonds { secW with whitelist := [10, 11] }).whitelist
        = [11, 1] := by
  decide

/-- C2 (amended): after a debounced press transitions PAIRING → LOCKDOWN, the
allow-list is rebuilt from the Bond Store only at the transition and is never
incrementally updated by later bond additions; however, the program's
advertising filter (`setScanFilter(true, false)`) whitelist-filters scan
requests only, so every connection attempt — in particular one from an
identity absent from the transition-time allow-list — is admitted at the link
layer; the only rejection of such an identity happens at identity resolution,
where `onIdentity` consults the live Bond Store: it disconnects exactly the
identities not currently bonded, and therefore passes an identity added to
the store after the transition.  Moreover the index-shifting clear loop does
not fully clear a previous whitelist of two entries: the second entry
survives into the rebuilt allow-list ahead of the bonded addresses. -/
theorem c2_lockdown_amended :
    (∀ (s : SecState) (now a : Nat) (adds : List Nat),
      s.gEdge = true → 50 ≤ u32sub now s.gLastToggleMs →
      s.isLockedDown = false → a ∉ s.bondStore → a ∉ adds →
      ((adds.foldl addBond
          (update_security_mode s now true).1).isLockedDown = true
      ∧ (adds.foldl addBond
          (update_security_mode s now true).1).whitelist
          = wlClearSteps s.whitelist.length 0 s.whitelist ++ s.bondStore
      ∧ linkLayerAdmits secAdvFilter
          (adds.foldl addBond (update_security_mode s now true).1) a = true
      ∧ ServerCallbacks_onIdentity
          (adds.foldl addBond (update_security_mode s now true).1) a = true
      ∧ ServerCallbacks_onIdentity
          (addBond (adds.foldl addBond (update_security_mode s now true).1)
            a) a = false))
    ∧ (∀ (x y : Nat) (t : SecState),
        (buildWhitelistFromBonds { t with whitelist := [x, y] }).whitelist
          = y :: t.bondStore) := by
  constructor
  · intro s now a adds h1 h2 h3 h4 h5
    have hd : ¬(u32sub now s.gLastToggleMs < 50) := Nat.not_lt.mpr h2
    have hst : (update_security_mode s now true).1
        = { s with
            gEdge := false,
            gLastToggleMs := u32 now,
            isLockedDown := true,
            whitelist :=
              wlClearSteps s.whitelist.length 0 s.whitelist ++ s.bondStore,
            advName := "TEST_LOCKED" } := by
      simp [update_security_mode, h1, hd, applyModeToSecurityAndAdv,
        buildWhitelistFromBonds, h3]
    obtain ⟨hw, hl, hb⟩ :=
      addBondFold adds (update_security_mode s now true).1
    have hld : (adds.foldl addBond
        (update_security_mode s now true).1).isLockedDown = true := by
      rw [hl, hst]
    have hwl : (adds.foldl addBond
        (update_security_mode s now true).1).whitelist
        = wlClearSteps s.whitelist.length 0 s.whitelist ++ s.bondStore := by
      rw [hw, hst]
    have hbs : (adds.foldl addBond
        (update_security_mode s now true).1).bondStore
        = adds.reverse ++ s.bondStore := by
      rw [hb, hst]
    have hnb : a ∉ (adds.foldl addBond
        (update_security_mode s now true).1).bondStore := by
      rw [hbs]
      intro hmem
      rcases List.mem_append.mp hmem with hx | hx
      · exact h5 (List.mem_reverse.mp hx)
      · exact h4 hx
    refine ⟨hld, hwl, rfl, ?_, ?_⟩
    · have hdef : ServerCallbacks_onIdentity
          (adds.foldl addBond (update_security_mode s now true).1) a
          = ((adds.foldl addBond
                (update_security_mode s now true).1).isLockedDown
              && !(decide (a ∈ (adds.foldl addBond
                (update_security_mode s now true).1).bondStore))) := rfl
      rw [hdef, hld, decide_eq_false hnb]
      rfl
    · have hmem2 : a ∈ (addBond (adds.foldl addBond
          (update_security_mode s now true).1) a).bondStore :=
        List.mem_cons_self a _
      have hdef : ServerCallbacks_onIdentity
          (addBond (adds.foldl addBond
            (update_security_mode s now true).1) a) a
          = ((addBond (adds.foldl addBond
                (update_security_mode s now true).1) a).isLockedDown
              && !(decide (a ∈ (addBond (adds.foldl addBond
                (update_security_mode s now true).1) a).bondStore))) := rfl
      have hld2 : (addBond (adds.foldl addBond
          (update_security_mode s now true).1) a).isLockedDown = true := hld
      rw [hdef, hld2, decide_eq_true hmem2]
      rfl
  · intro x y t
    have h1 : wlClearSteps 2 0 [x, y] = [y] := by
      simp [wlClearSteps, List.erase_cons_head]
    show wlClearSteps 2 0 [x, y] ++ t.bondStore = y :: t.bondStore
    rw [h1]
    rfl

/-- C2 witness: the concrete transition from `secW` — identity 2, never
bonded, is admitted at the link layer (connect filtering disabled) and
disconnected at identity resolution. -/
theorem c2_lockdown_amended_witness :
    ServerCallbacks_onIdentity
      ([].foldl addBond (update_security_mode secW 100 true).1) 2 = true
    ∧ linkLayerAdmits secAdvFilter
        ([].foldl addBond (update_security_mode secW 100 true).1) 2
        = true := by
  have h := c2_lockdown_amended.1 secW 100 2 [] rfl (by decide) rfl
    (by decide) (by decide)
  exact ⟨h.2.2.2.1, h.2.2.1⟩
